import Mathlib

/-!
Shallow embedding of the Account & Cart Core of `src/backend/server.py`
(a FastAPI + MongoDB e-commerce backend).

Modelling choices:
* Monetary values (Python `float` prices and totals) are modelled as exact
  rationals `Rat`; every arithmetic identity proved here is an identity of
  the very expressions the code computes (the code recomputes each total as
  a single sum over the line items).
* MongoDB collections are lists of documents; `find_one(filter)` is the
  first list element matching the filter and `update_one(filter, {$set ...})`
  rewrites the fields of the first matching element (`updateFirst` below).
* `uuid.uuid4()` outputs and `datetime.utcnow()` readings are threaded as
  explicit `freshId : String` / `now : Nat` arguments.
* The external libraries `bcrypt`, `PyJWT` and `email_validator` are not
  repository code; they are modelled by concrete executable stand-ins with
  the observable contract the server relies on (salted hash/verify pair,
  signed payload with expiry check, boolean syntax check).
-/

namespace Server

/-- `HTTPException(status_code=..., detail=...)` raised by the handlers. -/
structure HTTPError where
  status : Nat
  detail : String
deriving DecidableEq, Repr

/-- `User` model (server.py lines 40-47). -/
structure User where
  id : String
  email : String
  first_name : String
  last_name : String
  password_hash : String
  created_at : Nat
  is_active : Bool
deriving DecidableEq, Repr

/-- `UserResponse` model (lines 59-65): the account view returned to clients.
It has no `password_hash` field. -/
structure UserResponse where
  id : String
  email : String
  first_name : String
  last_name : String
  created_at : Nat
  is_active : Bool
deriving DecidableEq, Repr

/-- `UserResponse(**user_obj.dict())`: the view keeps exactly the declared
response fields and drops the rest (in particular `password_hash`). -/
def userResponse (u : User) : UserResponse :=
  { id := u.id, email := u.email, first_name := u.first_name,
    last_name := u.last_name, created_at := u.created_at, is_active := u.is_active }

/-- `Product` model (lines 67-78). -/
structure Product where
  id : String
  name : String
  description : String
  price : Rat
  category : String
  subcategory : Option String
  images : List String
  attributes : List (String × String)
  stock_quantity : Nat
  is_active : Bool
  created_at : Nat
deriving DecidableEq, Repr

/-- `CartItem` model (lines 90-93). -/
structure CartItem where
  product_id : String
  quantity : Int
  price : Rat
deriving DecidableEq, Repr

/-- `Cart` model (lines 95-101). -/
structure Cart where
  id : String
  user_id : String
  items : List CartItem
  total_amount : Rat
  created_at : Nat
  updated_at : Nat
deriving DecidableEq, Repr

/-- `Order` model (lines 103-111). -/
structure Order where
  id : String
  user_id : String
  items : List CartItem
  total_amount : Rat
  status : String
  shipping_address : List (String × String)
  payment_method : String
  created_at : Nat
deriving DecidableEq, Repr

/-- `OrderCreate` request body (lines 113-116). -/
structure OrderCreate where
  items : List CartItem
  shipping_address : List (String × String)
  payment_method : String
deriving DecidableEq, Repr

/-- The MongoDB database: the four collections the server touches. -/
structure DB where
  users : List User
  products : List Product
  carts : List Cart
  orders : List Order
deriving DecidableEq, Repr

/-- `update_one(filter, {$set ...})`: rewrite the first element matching the
filter, leave everything else untouched. -/
def updateFirst {α : Type} (l : List α) (p : α → Bool) (f : α → α) : List α :=
  match l with
  | [] => []
  | x :: xs => if p x then f x :: xs else x :: updateFirst xs p f

/-- `db.users.find_one({"email": email})`. -/
def findUserByEmail (db : DB) (email : String) : Option User :=
  db.users.find? (fun u => u.email == email)

/-- `db.products.find_one({"id": product_id, "is_active": True})`. -/
def findActiveProductIn (products : List Product) (product_id : String) : Option Product :=
  products.find? (fun p => p.id == product_id && p.is_active)

/-- Same lookup, on the database. -/
def findActiveProduct (db : DB) (product_id : String) : Option Product :=
  findActiveProductIn db.products product_id

/-- `db.carts.find_one({"user_id": uid})`. -/
def findCart (db : DB) (uid : String) : Option Cart :=
  db.carts.find? (fun c => c.user_id == uid)

/-- The `$set` document used on carts: overwrite `items`, `total_amount`
and `updated_at`, keep the other fields. -/
def setCartFields (items : List CartItem) (total : Rat) (now : Nat) (c : Cart) : Cart :=
  { c with items := items, total_amount := total, updated_at := now }

/-- `db.carts.update_one({"user_id": uid}, {"$set": {"items": ..,
"total_amount": .., "updated_at": ..}})` (lines 249-252, 265-268, 285-288). -/
def updateCartFields (db : DB) (uid : String) (items : List CartItem)
    (total : Rat) (now : Nat) : DB :=
  { db with
    carts :=
      updateFirst db.carts (fun c => c.user_id == uid) (setCartFields items total now) }

/-- `sum(item['quantity'] * item['price'] for item in cart_items)`
(lines 247, 263, 275). -/
def cartTotal (items : List CartItem) : Rat :=
  (items.map (fun it => (it.quantity : Rat) * it.price)).sum

/-- The merge loop of `add_to_cart` (lines 230-238): find the first line item
with the given product id and increment its quantity in place; its captured
price is left untouched. -/
def addQuantityToFirst (items : List CartItem) (product_id : String)
    (quantity : Int) : List CartItem :=
  match items with
  | [] => []
  | it :: rest =>
    if it.product_id == product_id then
      { it with quantity := it.quantity + quantity } :: rest
    else
      it :: addQuantityToFirst rest product_id quantity

/-- Response body of `add_to_cart` (line 254). -/
structure AddResult where
  message : String
  total_items : Nat
deriving DecidableEq, Repr

/-- `Cart(user_id=current_user.id)` (lines 210, 225): a freshly constructed
empty cart with the pydantic defaults (fresh uuid, empty items, zero total,
both timestamps set to now). -/
def newCart (freshCartId uid : String) (now : Nat) : Cart :=
  { id := freshCartId, user_id := uid, items := [], total_amount := 0,
    created_at := now, updated_at := now }

/-- Lines 229-254 of `add_to_cart`: merge or append the line item, recompute
the total, persist via `update_one`, and report `len(cart_items)`. -/
def addStep (db : DB) (uid product_id : String) (quantity : Int) (now : Nat)
    (product : Product) (cart : Cart) : Except HTTPError (AddResult × DB) :=
  let cart_items :=
    if ((cart.items.find? (fun it => it.product_id == product_id)).isSome : Bool) then
      addQuantityToFirst cart.items product_id quantity
    else
      cart.items ++ [{ product_id := product_id, quantity := quantity,
                       price := product.price }]
  let total := cartTotal cart_items
  Except.ok ({ message := "Item added to cart", total_items := cart_items.length },
             updateCartFields db uid cart_items total now)

/-- `POST /api/cart/add` handler `add_to_cart` (lines 215-254). -/
def add_to_cart (db : DB) (uid product_id : String) (quantity : Int)
    (freshCartId : String) (now : Nat) : Except HTTPError (AddResult × DB) :=
  match findActiveProduct db product_id with
  | none => Except.error ⟨404, "Product not found"⟩
  | some product =>
    match findCart db uid with
    | some cart => addStep db uid product_id quantity now product cart
    | none =>
      let c : Cart := newCart freshCartId uid now
      addStep { db with carts := db.carts ++ [c] } uid product_id quantity now product c

/-- `GET /api/cart` handler `get_cart` (lines 205-213): return the cart,
lazily creating and inserting an empty one on first access. -/
def get_cart (db : DB) (uid : String) (freshCartId : String) (now : Nat) : Cart × DB :=
  match findCart db uid with
  | some c => (c, db)
  | none =>
    let c : Cart := newCart freshCartId uid now
    (c, { db with carts := db.carts ++ [c] })

/-- `DELETE /api/cart/remove/{product_id}` handler `remove_from_cart`
(lines 256-270). -/
def remove_from_cart (db : DB) (uid product_id : String) (now : Nat) :
    Except HTTPError (String × DB) :=
  match findCart db uid with
  | none => Except.error ⟨404, "Cart not found"⟩
  | some cart =>
    let cart_items := cart.items.filter (fun it => it.product_id != product_id)
    let total := cartTotal cart_items
    Except.ok ("Item removed from cart", updateCartFields db uid cart_items total now)

/-- `POST /api/orders` handler `create_order` (lines 273-290): total the
caller-supplied items, insert the order with status `pending`, then clear
the account's cart. -/
def create_order (db : DB) (uid : String) (order_data : OrderCreate)
    (freshOrderId : String) (now : Nat) : Order × DB :=
  let total_amount := cartTotal order_data.items
  let order : Order := { id := freshOrderId, user_id := uid,
                         items := order_data.items, total_amount := total_amount,
                         status := "pending",
                         shipping_address := order_data.shipping_address,
                         payment_method := order_data.payment_method,
                         created_at := now }
  let db1 : DB := { db with orders := db.orders ++ [order] }
  (order, updateCartFields db1 uid [] 0 now)

/-- `GET /api/orders/{order_id}` handler `get_order` (lines 297-302):
`find_one({"id": order_id, "user_id": current_user.id})`. -/
def get_order (db : DB) (uid order_id : String) : Except HTTPError Order :=
  match db.orders.find? (fun o => o.id == order_id && o.user_id == uid) with
  | none => Except.error ⟨404, "Order not found"⟩
  | some o => Except.ok o

/-- Stand-in for the external `bcrypt.hashpw` (line 120): a salted one-way
function, modelled concretely as salt-tagged storage so that `verify_password`
can re-check it. Callers never compare hashes directly. -/
def hash_password (password : String) (salt : String) : String :=
  salt ++ "$" ++ password

/-- Stand-in for the external `bcrypt.checkpw` (line 123): true iff the
password re-hashes to the stored value under the salt stored in the hash. -/
def verify_password (password : String) (hashed : String) : Bool :=
  List.isSuffixOf ("$" ++ password).data hashed.data

/-- Stand-in for the external `email_validator.validate_email` (line 151):
a concrete boolean syntax check (a single `@` with a nonempty local part and
a domain containing a dot). Only its boolean verdict matters to the server's
control flow. -/
def validEmail (email : String) : Bool :=
  let cs := email.data
  let local_part := cs.takeWhile (fun c => c != '@')
  let rest := cs.dropWhile (fun c => c != '@')
  match rest with
  | '@' :: domain =>
    !local_part.isEmpty && !domain.isEmpty && !domain.contains '@' &&
      domain.contains '.'
  | _ => false

/-- `POST /api/auth/register` handler `register` (lines 147-166). -/
def register (db : DB) (email first_name last_name password : String)
    (freshId salt : String) (now : Nat) : Except HTTPError (UserResponse × DB) :=
  if validEmail email then
    match findUserByEmail db email with
    | some _ => Except.error ⟨400, "Email already registered"⟩
    | none =>
      let user : User := { id := freshId, email := email, first_name := first_name,
                           last_name := last_name,
                           password_hash := hash_password password salt,
                           created_at := now, is_active := true }
      Except.ok (userResponse user, { db with users := db.users ++ [user] })
  else
    Except.error ⟨400, "Invalid email format"⟩

/-- JWT payload: the claims the server reads (`sub`, `exp`). PyJWT omits the
expiry check when `exp` is absent, hence the `Option`. -/
structure TokenPayload where
  sub : Option String
  exp : Option Nat
deriving DecidableEq, Repr

/-- Stand-in for the external HS256 signature over the encoded payload:
a concrete function of the secret and the payload. -/
def sign (secret : String) (p : TokenPayload) : String :=
  secret ++ "|" ++ (match p.sub with | none => "-" | some s => "s:" ++ s)
         ++ "|" ++ (match p.exp with | none => "-" | some e => "e:" ++ toString e)

/-- A bearer token as the validator sees it: either not a structurally valid
JWT at all, or a payload together with a signature string. -/
inductive Token where
  | malformed (raw : String)
  | signed (payload : TokenPayload) (sig : String)
deriving DecidableEq, Repr

/-- `JWT_SECRET` (line 26): the process-wide shared secret. -/
def JWT_SECRET : String := "your-secret-key-here"

/-- `ACCESS_TOKEN_EXPIRE_HOURS = 24` (line 28). -/
def ACCESS_TOKEN_EXPIRE_HOURS : Nat := 24

/-- `create_access_token(data={"sub": uid})` (lines 125-130): embed the
subject with expiry `now + 24 hours` and sign with the shared secret. -/
def create_access_token (sub : String) (now : Nat) : Token :=
  let expire := now + ACCESS_TOKEN_EXPIRE_HOURS * 3600
  let payload : TokenPayload := { sub := some sub, exp := some expire }
  Token.signed payload (sign JWT_SECRET payload)

/-- Stand-in for the external `jwt.decode(token, secret, algorithms=["HS256"])`
(line 134): `none` models a raised `PyJWTError` — on a malformed token, on a
signature that does not verify under `secret`, or on `exp ≤ now` (PyJWT
rejects exactly when the expiry is not in the future; there is no leeway). -/
def jwt_decode (tok : Token) (secret : String) (now : Nat) : Option TokenPayload :=
  match tok with
  | Token.malformed _ => none
  | Token.signed p s =>
    if s == sign secret p then
      match p.exp with
      | some e => if e ≤ now then none else some p
      | none => some p
    else none

/-- The token-validation part of `get_current_user` (lines 133-139): decode
under the shared secret, then require a `sub` claim; any failure is the
single 401 "Invalid token" outcome. -/
def validate_token (tok : Token) (now : Nat) : Except HTTPError String :=
  match jwt_decode tok JWT_SECRET now with
  | none => Except.error ⟨401, "Invalid token"⟩
  | some payload =>
    match payload.sub with
    | none => Except.error ⟨401, "Invalid token"⟩
    | some uid => Except.ok uid

/-- Response body of `login` (line 175). -/
structure LoginResponse where
  access_token : Token
  token_type : String
  user : UserResponse
deriving DecidableEq, Repr

/-- `POST /api/auth/login` handler `login` (lines 168-175): look up by email;
`if not user or not verify_password(...)` fails with the single 401 error. -/
def login (db : DB) (email password : String) (now : Nat) :
    Except HTTPError LoginResponse :=
  match findUserByEmail db email with
  | none => Except.error ⟨401, "Invalid email or password"⟩
  | some user =>
    if verify_password password user.password_hash then
      Except.ok { access_token := create_access_token user.id now,
                  token_type := "bearer", user := userResponse user }
    else
      Except.error ⟨401, "Invalid email or password"⟩

/-- Cart invariant: at most one line item per product identifier, and the
stored total is the sum of quantity × captured price over the line items. -/
def CartInv (c : Cart) : Prop :=
  (c.items.map CartItem.product_id).Nodup ∧ c.total_amount = cartTotal c.items

/-- All persisted carts satisfy `CartInv`. -/
def DBCartInv (db : DB) : Prop :=
  ∀ c ∈ db.carts, CartInv c

/-! Concrete sample data used to instantiate the theorems below. -/

/-- A sample registered account. -/
def sampleUser : User :=
  { id := "u1", email := "ada.b@shop.com", first_name := "Ada", last_name := "B",
    password_hash := hash_password "pw1" "salt1", created_at := 0, is_active := true }

/-- A sample active catalog product. -/
def sampleProduct : Product :=
  { id := "p1", name := "Wig", description := "a wig", price := 10, category := "wigs",
    subcategory := none, images := [], attributes := [], stock_quantity := 5,
    is_active := true, created_at := 0 }

/-- The same product after a catalog price change. -/
def repricedProduct : Product :=
  { sampleProduct with price := 99 }

/-- An empty cart owned by `sampleUser`. -/
def emptyCart : Cart :=
  { id := "c1", user_id := "u1", items := [], total_amount := 0,
    created_at := 0, updated_at := 0 }

/-- An order owned by `sampleUser`. -/
def sampleOrder : Order :=
  { id := "o1", user_id := "u1", items := [⟨"p1", 2, 10⟩], total_amount := 20,
    status := "pending", shipping_address := [("city", "Lome")],
    payment_method := "card", created_at := 0 }

/-- A sample order-placement request body. -/
def sampleOrderCreate : OrderCreate :=
  { items := [⟨"p1", 2, 10⟩], shipping_address := [("city", "Lome")],
    payment_method := "card" }

/-- A sample database with one user, one product, one empty cart, one order. -/
def sampleDb : DB :=
  { users := [sampleUser], products := [sampleProduct], carts := [emptyCart],
    orders := [sampleOrder] }

/-- A sample database with no cart for `sampleUser`. -/
def sampleDbNoCart : DB :=
  { users := [sampleUser], products := [sampleProduct], carts := [], orders := [] }

/-! List helper lemmas about the Mongo-style first-match operations. -/

/-- If nothing in the list matches the filter, `updateFirst` is the identity. -/
theorem updateFirst_eq_of_find_none {α : Type} (l : List α) (p : α → Bool) (f : α → α)
    (h : l.find? p = none) : updateFirst l p f = l := by
  induction l with
  | nil => rfl
  | cons x xs ih =>
    cases hx : p x with
    | true => simp [List.find?_cons, hx] at h
    | false =>
      rw [List.find?_cons, hx] at h
      simp [updateFirst, hx, ih h]

/-- `updateFirst` rewrites exactly the first matching element. -/
theorem find_updateFirst {α : Type} (l : List α) (p : α → Bool) (f : α → α) (x : α)
    (h : l.find? p = some x) (hf : p (f x) = true) :
    (updateFirst l p f).find? p = some (f x) := by
  induction l with
  | nil => simp [List.find?] at h
  | cons a as ih =>
    cases ha : p a with
    | true =>
      rw [List.find?_cons, ha] at h
      have hax : a = x := by simpa using h
      subst hax
      simp [updateFirst, ha, List.find?_cons, hf]
    | false =>
      rw [List.find?_cons, ha] at h
      simp [updateFirst, ha, List.find?_cons, ih h]

/-- Every element of `updateFirst l p f` is an old element or the image of a
matching old element. -/
theorem mem_updateFirst {α : Type} {l : List α} {p : α → Bool} {f : α → α} {y : α}
    (h : y ∈ updateFirst l p f) : y ∈ l ∨ ∃ x ∈ l, p x = true ∧ y = f x := by
  induction l with
  | nil => simp [updateFirst] at h
  | cons a as ih =>
    cases ha : p a with
    | true =>
      rw [updateFirst, if_pos ha] at h
      rcases List.mem_cons.mp h with h | h
      · exact Or.inr ⟨a, List.mem_cons_self a as, ha, h⟩
      · exact Or.inl (List.mem_cons_of_mem a h)
    | false =>
      rw [updateFirst, if_neg (by simp [ha])] at h
      rcases List.mem_cons.mp h with h | h
      · exact Or.inl (h ▸ List.mem_cons_self a as)
      · rcases ih h with h | ⟨x, hx, hpx, hy⟩
        · exact Or.inl (List.mem_cons_of_mem a h)
        · exact Or.inr ⟨x, List.mem_cons_of_mem a hx, hpx, hy⟩

/-- Appending a matching element to a list with no match: `find?` returns it. -/
theorem find_append_singleton {α : Type} (l : List α) (p : α → Bool) (x : α)
    (h : l.find? p = none) (hx : p x = true) : (l ++ [x]).find? p = some x := by
  induction l with
  | nil => simp [List.find?_cons, hx]
  | cons a as ih =>
    cases ha : p a with
    | true => simp [List.find?_cons, ha] at h
    | false =>
      rw [List.find?_cons, ha] at h
      simp [List.find?_cons, ha, ih h]

/-- The first match of a predicate satisfied by a unique element is that
element. -/
theorem find_eq_of_unique {α : Type} (l : List α) (p : α → Bool) (x : α)
    (hx : x ∈ l) (hpx : p x = true) (huniq : ∀ y ∈ l, p y = true → y = x) :
    l.find? p = some x := by
  induction l with
  | nil => simp at hx
  | cons a as ih =>
    cases ha : p a with
    | true =>
      rw [List.find?_cons, ha]
      exact congrArg some (huniq a (List.mem_cons_self a as) ha)
    | false =>
      rw [List.find?_cons, ha]
      rcases List.mem_cons.mp hx with h | h
      · rw [← h] at ha; rw [hpx] at ha; cases ha
      · exact ih h (fun y hy hpy => huniq y (List.mem_cons_of_mem a hy) hpy)

/-- The quantity-merge loop keeps the product identifiers of the line items
exactly as they were. -/
theorem map_productId_addQuantityToFirst (items : List CartItem) (pid : String)
    (q : Int) :
    (addQuantityToFirst items pid q).map CartItem.product_id =
      items.map CartItem.product_id := by
  induction items with
  | nil => rfl
  | cons it rest ih =>
    by_cases h : it.product_id = pid
    · simp [addQuantityToFirst, h]
    · simp [addQuantityToFirst, h, ih]

/-- Cart lookup after a cart-collection update: the stored cart gets the new
fields. -/
theorem findCart_updateCartFields (db : DB) (uid : String) (items : List CartItem)
    (total : Rat) (now : Nat) (c : Cart) (hc : findCart db uid = some c) :
    findCart (updateCartFields db uid items total now) uid =
      some (setCartFields items total now c) := by
  unfold findCart at hc
  have hpc : (fun x : Cart => x.user_id == uid) (setCartFields items total now c) = true := by
    simpa [setCartFields] using List.find?_some hc
  unfold findCart updateCartFields
  exact find_updateFirst _ _ _ _ hc hpc

/-- Cart-collection update is a no-op when the account has no cart. -/
theorem updateCartFields_of_none (db : DB) (uid : String) (items : List CartItem)
    (total : Rat) (now : Nat) (hc : findCart db uid = none) :
    updateCartFields db uid items total now = db := by
  unfold updateCartFields
  rw [updateFirst_eq_of_find_none _ _ _ hc]

/-- Characterization of successful token validation: the token must be a
payload signed under the shared secret, carry the subject, and have an
expiry (when present) strictly in the future. -/
theorem validate_token_ok_iff (tok : Token) (now : Nat) (uid : String) :
    validate_token tok now = Except.ok uid ↔
      ∃ p : TokenPayload, tok = Token.signed p (sign JWT_SECRET p) ∧
        p.sub = some uid ∧ ∀ e : Nat, p.exp = some e → now < e := by
  constructor
  · intro h
    cases tok with
    | malformed raw => simp [validate_token, jwt_decode] at h
    | signed p s =>
      by_cases hs : s = sign JWT_SECRET p
      · subst hs
        cases he : p.exp with
        | none =>
          cases hsub : p.sub with
          | none => simp [validate_token, jwt_decode, he, hsub] at h
          | some u =>
            have hu : u = uid := by
              simpa [validate_token, jwt_decode, he, hsub] using h
            exact ⟨p, rfl, by rw [hsub, hu],
              fun e hee => by rw [he] at hee; cases hee⟩
        | some e =>
          by_cases hle : e ≤ now
          · simp [validate_token, jwt_decode, he, hle] at h
          · cases hsub : p.sub with
            | none => simp [validate_token, jwt_decode, he, hle, hsub] at h
            | some u =>
              have hu : u = uid := by
                simpa [validate_token, jwt_decode, he, hle, hsub] using h
              refine ⟨p, rfl, by rw [hsub, hu], fun e' hee => ?_⟩
              rw [he] at hee
              injection hee with hee
              omega
      · simp [validate_token, jwt_decode, hs] at h
  · rintro ⟨p, rfl, hsub, hexp⟩
    cases he : p.exp with
    | none => simp [validate_token, jwt_decode, he, hsub]
    | some e =>
      have hlt : now < e := hexp e he
      simp [validate_token, jwt_decode, he, hsub, Nat.not_le.mpr hlt]

/-- Claim C4: token validation succeeds with the embedded subject iff the
signature verifies under the process-wide shared secret, the token is
structurally well-formed with a subject, and the current time is strictly
before the embedded expiry; it fails as Invalid otherwise, with no grace
period. Issue time sets the expiry to now plus 24 hours, and a freshly
issued token validates immediately to the issuing account's identifier. -/
theorem C4 (tok : Token) (now : Nat) (uid : String) :
    (validate_token tok now = Except.ok uid ↔
      ∃ p : TokenPayload, tok = Token.signed p (sign JWT_SECRET p) ∧
        p.sub = some uid ∧ ∀ e : Nat, p.exp = some e → now < e) ∧
    (∃ s : String, create_access_token uid now =
      Token.signed { sub := some uid, exp := some (now + ACCESS_TOKEN_EXPIRE_HOURS * 3600) } s) ∧
    validate_token (create_access_token uid now) now = Except.ok uid := by
  refine ⟨validate_token_ok_iff tok now uid, ⟨_, rfl⟩, ?_⟩
  apply (validate_token_ok_iff _ now uid).mpr
  refine ⟨{ sub := some uid, exp := some (now + ACCESS_TOKEN_EXPIRE_HOURS * 3600) },
    rfl, rfl, fun e he => ?_⟩
  have he' : now + ACCESS_TOKEN_EXPIRE_HOURS * 3600 = e := by
    simpa using he
  rw [← he', ACCESS_TOKEN_EXPIRE_HOURS]
  omega

/-- Claim C5: a login with an unregistered email and a login with a
registered email but wrong password fail with the same error kind
(401, "Invalid email or password") and literally identical responses. -/
theorem C5 (db : DB) (email1 email2 pw1 pw2 : String) (now1 now2 : Nat) (u : User)
    (h1 : findUserByEmail db email1 = none)
    (h2 : findUserByEmail db email2 = some u)
    (h3 : verify_password pw2 u.password_hash = false) :
    login db email1 pw1 now1 = Except.error ⟨401, "Invalid email or password"⟩ ∧
    login db email2 pw2 now2 = Except.error ⟨401, "Invalid email or password"⟩ ∧
    login db email1 pw1 now1 = login db email2 pw2 now2 := by
  have ha : login db email1 pw1 now1 = Except.error ⟨401, "Invalid email or password"⟩ := by
    simp [login, h1]
  have hb : login db email2 pw2 now2 = Except.error ⟨401, "Invalid email or password"⟩ := by
    simp [login, h2, h3]
  exact ⟨ha, hb, ha.trans hb.symm⟩

/-- Witness for C5 on a concrete database: `no@x.com` is unregistered, and
`sampleUser`'s password is not "wrong". -/
theorem C5_witness :
    (findUserByEmail sampleDb "no@x.com" = none ∧
     findUserByEmail sampleDb "ada.b@shop.com" = some sampleUser ∧
     verify_password "wrong" sampleUser.password_hash = false) ∧
    (login sampleDb "no@x.com" "pw" 0 = Except.error ⟨401, "Invalid email or password"⟩ ∧
     login sampleDb "ada.b@shop.com" "wrong" 1 = Except.error ⟨401, "Invalid email or password"⟩ ∧
     login sampleDb "no@x.com" "pw" 0 = login sampleDb "ada.b@shop.com" "wrong" 1) :=
  ⟨⟨by decide, by decide, by decide⟩,
   C5 sampleDb "no@x.com" "ada.b@shop.com" "pw" "wrong" 0 1 sampleUser
     (by decide) (by decide) (by decide)⟩

/-- Claim C9: get-cart always succeeds; on first access it creates, persists
and returns an empty cart (zero items, zero total) owned by the account, and
a second call returns the very same cart and leaves the stored state
unchanged (and on any state where a cart exists, get-cart returns it without
writing). -/
theorem C9 (db : DB) (uid fid fid2 : String) (now now2 : Nat)
    (hnone : findCart db uid = none) :
    ∃ c : Cart, ∃ db1 : DB,
      get_cart db uid fid now = (c, db1) ∧
      c.items = [] ∧ c.total_amount = 0 ∧ c.user_id = uid ∧
      findCart db1 uid = some c ∧
      get_cart db1 uid fid2 now2 = (c, db1) ∧
      (∀ db0 : DB, ∀ c0 : Cart, findCart db0 uid = some c0 →
        get_cart db0 uid fid2 now2 = (c0, db0)) := by
  have hfound : findCart { db with carts := db.carts ++ [newCart fid uid now] } uid =
      some (newCart fid uid now) := by
    unfold findCart at hnone ⊢
    exact find_append_singleton _ _ _ hnone (by simp [newCart])
  refine ⟨newCart fid uid now, { db with carts := db.carts ++ [newCart fid uid now] },
          ?_, rfl, rfl, rfl, hfound, ?_, ?_⟩
  · simp [get_cart, hnone]
  · simp [get_cart, hfound]
  · intro db0 c0 h0
    simp [get_cart, h0]

/-- The merge loop does not change the number of line items. -/
theorem length_addQuantityToFirst (items : List CartItem) (pid : String) (q : Int) :
    (addQuantityToFirst items pid q).length = items.length := by
  rw [← List.length_map (addQuantityToFirst items pid q) CartItem.product_id,
    map_productId_addQuantityToFirst, List.length_map]

/-- `add_to_cart` with an active product and an existing cart runs the
merge-and-persist block on that cart. -/
theorem add_to_cart_existing (db : DB) (uid pid : String) (qty : Int)
    (fid : String) (now : Nat) (c : Cart) (product : Product)
    (hp : findActiveProduct db pid = some product)
    (hc : findCart db uid = some c) :
    add_to_cart db uid pid qty fid now = addStep db uid pid qty now product c := by
  unfold add_to_cart
  rw [hp, hc]

/-- `add_to_cart` with an active product and no cart yet first inserts a
fresh empty cart and then runs the merge-and-persist block on it. -/
theorem add_to_cart_fresh (db : DB) (uid pid : String) (qty : Int)
    (fid : String) (now : Nat) (product : Product)
    (hp : findActiveProduct db pid = some product)
    (hc : findCart db uid = none) :
    add_to_cart db uid pid qty fid now =
      addStep { db with carts := db.carts ++ [newCart fid uid now] }
        uid pid qty now product (newCart fid uid now) := by
  unfold add_to_cart
  rw [hp, hc]

/-- The merge-and-persist block when no line item matches: append a new line
item capturing the product's current price. -/
theorem addStep_append (db : DB) (uid pid : String) (qty : Int) (now : Nat)
    (product : Product) (cart : Cart)
    (hnone : cart.items.find? (fun it => it.product_id == pid) = none) :
    addStep db uid pid qty now product cart =
      Except.ok ({ message := "Item added to cart",
                   total_items := cart.items.length + 1 },
        updateCartFields db uid
          (cart.items ++ [{ product_id := pid, quantity := qty, price := product.price }])
          (cartTotal (cart.items ++ [{ product_id := pid, quantity := qty, price := product.price }]))
          now) := by
  unfold addStep
  rw [hnone]
  simp

/-- The merge-and-persist block when a line item already matches: increment
its quantity in place, leaving its captured price untouched. -/
theorem addStep_merge (db : DB) (uid pid : String) (qty : Int) (now : Nat)
    (product : Product) (cart : Cart) (it0 : CartItem)
    (hsome : cart.items.find? (fun it => it.product_id == pid) = some it0) :
    addStep db uid pid qty now product cart =
      Except.ok ({ message := "Item added to cart",
                   total_items := cart.items.length },
        updateCartFields db uid (addQuantityToFirst cart.items pid qty)
          (cartTotal (addQuantityToFirst cart.items pid qty)) now) := by
  unfold addStep
  rw [hsome]
  simp [length_addQuantityToFirst]

/-- Claim C1: on an account whose cart is empty, `add(acct, p, 2)` then
`add(acct, p, 3)` leaves exactly one line item for `p`, with quantity 5 and
the unit price captured at the first add, and the total is 5 times that
captured price — even if the catalog price of `p` changes between the adds
(the catalog is replaced by an arbitrary `products2` in which `p` is still
an active product, of any price). -/
theorem C1 (db : DB) (uid pid : String) (c : Cart) (p q : Product)
    (products2 : List Product) (fid1 fid2 : String) (t1 t2 : Nat)
    (hc : findCart db uid = some c) (hce : c.items = [])
    (hp : findActiveProduct db pid = some p)
    (hq : findActiveProductIn products2 pid = some q) :
    ∃ r1 : AddResult, ∃ db1 : DB, ∃ r2 : AddResult, ∃ db2 : DB, ∃ c2 : Cart,
      add_to_cart db uid pid 2 fid1 t1 = Except.ok (r1, db1) ∧
      add_to_cart { db1 with products := products2 } uid pid 3 fid2 t2 =
        Except.ok (r2, db2) ∧
      findCart db2 uid = some c2 ∧
      c2.items = [{ product_id := pid, quantity := 5, price := p.price }] ∧
      c2.total_amount = 5 * p.price := by
  have hfind0 : c.items.find? (fun it => it.product_id == pid) = none := by
    rw [hce]; rfl
  have h1 : add_to_cart db uid pid 2 fid1 t1 =
      Except.ok ({ message := "Item added to cart", total_items := c.items.length + 1 },
        updateCartFields db uid
          (c.items ++ [{ product_id := pid, quantity := 2, price := p.price }])
          (cartTotal (c.items ++ [{ product_id := pid, quantity := 2, price := p.price }]))
          t1) :=
    (add_to_cart_existing db uid pid 2 fid1 t1 c p hp hc).trans
      (addStep_append db uid pid 2 t1 p c hfind0)
  rw [hce] at h1
  simp only [List.nil_append, List.length_nil] at h1
  set items1 : List CartItem := [{ product_id := pid, quantity := 2, price := p.price }]
    with hitems1
  set db1 : DB := updateCartFields db uid items1 (cartTotal items1) t1 with hdb1
  have hc1 : findCart db1 uid = some (setCartFields items1 (cartTotal items1) t1 c) :=
    findCart_updateCartFields db uid items1 (cartTotal items1) t1 c hc
  set c1 : Cart := setCartFields items1 (cartTotal items1) t1 c with hc1def
  have hc1' : findCart { db1 with products := products2 } uid = some c1 := hc1
  have hp2 : findActiveProduct { db1 with products := products2 } pid = some q := hq
  have hfind1 : c1.items.find? (fun it => it.product_id == pid) = some
      { product_id := pid, quantity := 2, price := p.price } := by
    simp [hc1def, setCartFields, hitems1, List.find?]
  have h2 : add_to_cart { db1 with products := products2 } uid pid 3 fid2 t2 =
      Except.ok ({ message := "Item added to cart", total_items := c1.items.length },
        updateCartFields { db1 with products := products2 } uid
          (addQuantityToFirst c1.items pid 3)
          (cartTotal (addQuantityToFirst c1.items pid 3)) t2) :=
    (add_to_cart_existing { db1 with products := products2 } uid pid 3 fid2 t2 c1 q
        hp2 hc1').trans
      (addStep_merge { db1 with products := products2 } uid pid 3 t2 q c1
        { product_id := pid, quantity := 2, price := p.price } hfind1)
  have hmerge : addQuantityToFirst c1.items pid 3 =
      [{ product_id := pid, quantity := 5, price := p.price }] := by
    simp [hc1def, setCartFields, hitems1, addQuantityToFirst]
  rw [hmerge] at h2
  have hc2 : findCart (updateCartFields { db1 with products := products2 } uid
      [{ product_id := pid, quantity := 5, price := p.price }]
      (cartTotal [{ product_id := pid, quantity := 5, price := p.price }]) t2) uid =
      some (setCartFields [{ product_id := pid, quantity := 5, price := p.price }]
        (cartTotal [{ product_id := pid, quantity := 5, price := p.price }]) t2 c1) :=
    findCart_updateCartFields { db1 with products := products2 } uid _ _ t2 c1 hc1'
  refine ⟨_, _, _, _, _, h1, h2, hc2, rfl, ?_⟩
  show cartTotal [{ product_id := pid, quantity := 5, price := p.price }] = 5 * p.price
  simp [cartTotal]

/-- Witness for C1 on a concrete database: `sampleProduct` costs 10, the
catalog is repriced to 99 between the adds, and the captured price stays 10. -/
theorem C1_witness :
    (findCart sampleDb "u1" = some emptyCart ∧ emptyCart.items = [] ∧
     findActiveProduct sampleDb "p1" = some sampleProduct ∧
     findActiveProductIn [repricedProduct] "p1" = some repricedProduct) ∧
    (∃ r1 : AddResult, ∃ db1 : DB, ∃ r2 : AddResult, ∃ db2 : DB, ∃ c2 : Cart,
      add_to_cart sampleDb "u1" "p1" 2 "cA" 1 = Except.ok (r1, db1) ∧
      add_to_cart { db1 with products := [repricedProduct] } "u1" "p1" 3 "cB" 2 =
        Except.ok (r2, db2) ∧
      findCart db2 "u1" = some c2 ∧
      c2.items = [{ product_id := "p1", quantity := 5, price := sampleProduct.price }] ∧
      c2.total_amount = 5 * sampleProduct.price) :=
  ⟨⟨by decide, by decide, by decide, by decide⟩,
   C1 sampleDb "u1" "p1" emptyCart sampleProduct repricedProduct [repricedProduct]
     "cA" "cB" 1 2 (by decide) (by decide) (by decide) (by decide)⟩

/-- A cart update whose total is recomputed from the new items preserves the
database-wide cart invariant, provided the new item list has no duplicate
product identifiers. -/
theorem DBCartInv_updateCartFields (db : DB) (uid : String) (items : List CartItem)
    (total : Rat) (now : Nat) (h : DBCartInv db)
    (hitems : (items.map CartItem.product_id).Nodup)
    (htot : total = cartTotal items) :
    DBCartInv (updateCartFields db uid items total now) := by
  intro c' hc'
  unfold updateCartFields at hc'
  rcases mem_updateFirst hc' with h1 | ⟨x, _, _, rfl⟩
  · exact h c' h1
  · exact ⟨hitems, htot⟩

/-- Appending a cart satisfying the invariant preserves the database-wide
cart invariant. -/
theorem DBCartInv_append (db : DB) (c : Cart) (h : DBCartInv db) (hc : CartInv c) :
    DBCartInv { db with carts := db.carts ++ [c] } := by
  intro c' hc'
  rcases List.mem_append.mp hc' with h1 | h1
  · exact h c' h1
  · rw [List.mem_singleton.mp h1]; exact hc

/-- A freshly constructed empty cart satisfies the cart invariant. -/
theorem CartInv_newCart (fid uid : String) (now : Nat) : CartInv (newCart fid uid now) :=
  ⟨List.nodup_nil, rfl⟩

/-- Appending a line item for a product not yet in the cart keeps the
product identifiers duplicate-free. -/
theorem nodup_append_new (items : List CartItem) (pid : String) (qty : Int)
    (pr : Rat) (hnd : (items.map CartItem.product_id).Nodup)
    (hnone : items.find? (fun it => it.product_id == pid) = none) :
    ((items ++ [(⟨pid, qty, pr⟩ : CartItem)]).map CartItem.product_id).Nodup := by
  rw [List.map_append]
  rw [List.nodup_append]
  refine ⟨hnd, List.nodup_singleton _, ?_⟩
  intro a ha hb
  simp only [List.map_cons, List.map_nil, List.mem_singleton] at hb
  subst hb
  rcases List.mem_map.mp ha with ⟨it, hit, hpid⟩
  have := List.find?_eq_none.mp hnone it hit
  simp only [beq_iff_eq] at this
  exact this (by rw [hpid])

/-- The account's pre-state cart, when it exists, satisfies the invariant. -/
theorem cartInv_of_findCart (db : DB) (uid : String) (c : Cart)
    (h : DBCartInv db) (hc : findCart db uid = some c) : CartInv c := by
  unfold findCart at hc
  exact h c (List.mem_of_find?_eq_some hc)

/-- Claim C2: each cart-mutating operation — lazy creation on get, add,
remove, and the cart-clearing step of order placement — preserves the
invariant that every persisted cart has at most one line item per product
identifier and a total equal to Σ quantity × captured price. -/
theorem C2 (db : DB) (uid pid fid foid : String) (qty : Int) (now : Nat)
    (od : OrderCreate) (h : DBCartInv db) :
    DBCartInv (get_cart db uid fid now).2 ∧
    (∀ r : AddResult, ∀ db' : DB,
      add_to_cart db uid pid qty fid now = Except.ok (r, db') → DBCartInv db') ∧
    (∀ m : String, ∀ db' : DB,
      remove_from_cart db uid pid now = Except.ok (m, db') → DBCartInv db') ∧
    DBCartInv (create_order db uid od foid now).2 := by
  refine ⟨?_, ?_, ?_, ?_⟩
  · cases hcc : findCart db uid with
    | some c => simpa [get_cart, hcc] using h
    | none =>
      simp only [get_cart, hcc]
      exact DBCartInv_append db _ h (CartInv_newCart fid uid now)
  · intro r db' hadd
    cases hpp : findActiveProduct db pid with
    | none => unfold add_to_cart at hadd; rw [hpp] at hadd; cases hadd
    | some product =>
      cases hcc : findCart db uid with
      | some cart =>
        rw [add_to_cart_existing db uid pid qty fid now cart product hpp hcc] at hadd
        have hcinv := cartInv_of_findCart db uid cart h hcc
        cases hfind : cart.items.find? (fun it => it.product_id == pid) with
        | some it0 =>
          rw [addStep_merge db uid pid qty now product cart it0 hfind] at hadd
          simp only [Except.ok.injEq, Prod.mk.injEq] at hadd
          rw [← hadd.2]
          refine DBCartInv_updateCartFields db uid _ _ now h ?_ rfl
          rw [map_productId_addQuantityToFirst]
          exact hcinv.1
        | none =>
          rw [addStep_append db uid pid qty now product cart hfind] at hadd
          simp only [Except.ok.injEq, Prod.mk.injEq] at hadd
          rw [← hadd.2]
          exact DBCartInv_updateCartFields db uid _ _ now h
            (nodup_append_new cart.items pid qty product.price hcinv.1 hfind) rfl
      | none =>
        rw [add_to_cart_fresh db uid pid qty fid now product hpp hcc] at hadd
        have hfind : (newCart fid uid now).items.find?
            (fun it => it.product_id == pid) = none := rfl
        rw [addStep_append _ uid pid qty now product _ hfind] at hadd
        simp only [Except.ok.injEq, Prod.mk.injEq] at hadd
        rw [← hadd.2]
        have hbase : DBCartInv { db with carts := db.carts ++ [newCart fid uid now] } :=
          DBCartInv_append db _ h (CartInv_newCart fid uid now)
        exact DBCartInv_updateCartFields _ uid _ _ now hbase
          (nodup_append_new [] pid qty product.price List.nodup_nil rfl) rfl
  · intro m db' hrem
    cases hcc : findCart db uid with
    | none => unfold remove_from_cart at hrem; rw [hcc] at hrem; cases hrem
    | some cart =>
      unfold remove_from_cart at hrem
      rw [hcc] at hrem
      simp only [Except.ok.injEq, Prod.mk.injEq] at hrem
      rw [← hrem.2]
      have hcinv := cartInv_of_findCart db uid cart h hcc
      refine DBCartInv_updateCartFields db uid _ _ now h ?_ rfl
      exact List.Nodup.sublist
        ((List.filter_sublist cart.items).map CartItem.product_id) hcinv.1
  · show DBCartInv (updateCartFields { db with orders := _ } uid [] 0 now)
    have hbase : DBCartInv { db with orders := db.orders ++
        [(create_order db uid od foid now).1] } := h
    exact DBCartInv_updateCartFields _ uid [] 0 now hbase List.nodup_nil rfl

/-- Witness for C2 on a concrete database satisfying the invariant. -/
theorem C2_witness :
    DBCartInv sampleDb ∧
    (DBCartInv (get_cart sampleDb "u1" "c5" 9).2 ∧
     (∀ r : AddResult, ∀ db' : DB,
       add_to_cart sampleDb "u1" "p1" 2 "c5" 9 = Except.ok (r, db') → DBCartInv db') ∧
     (∀ m : String, ∀ db' : DB,
       remove_from_cart sampleDb "u1" "p1" 9 = Except.ok (m, db') → DBCartInv db') ∧
     DBCartInv (create_order sampleDb "u1" sampleOrderCreate "o5" 9).2) := by
  have hinv : DBCartInv sampleDb := by
    intro c hc
    simp only [sampleDb, List.mem_singleton] at hc
    subst hc
    exact ⟨List.nodup_nil, rfl⟩
  exact ⟨hinv, C2 sampleDb "u1" "p1" "c5" "o5" 2 9 sampleOrderCreate hinv⟩

/-- Clearing a cart (`$set` of empty items and zero total) makes a
subsequent get-cart show zero items and zero total, whether or not the
account had a cart. -/
theorem get_cart_after_clear (db : DB) (uid fcid : String) (now t2 : Nat) :
    (get_cart (updateCartFields db uid [] 0 now) uid fcid t2).1.items = [] ∧
    (get_cart (updateCartFields db uid [] 0 now) uid fcid t2).1.total_amount = 0 := by
  cases hcc : findCart db uid with
  | some c =>
    have hpost := findCart_updateCartFields db uid [] 0 now c hcc
    constructor <;> simp [get_cart, hpost, setCartFields]
  | none =>
    have hnoop := updateCartFields_of_none db uid [] 0 now hcc
    rw [hnoop]
    constructor <;> simp [get_cart, hcc, newCart]

/-- Claim C3: order placement returns an order owned by the account, with
status `pending` and total Σ quantity × price over the caller-supplied
items (independent of the catalog contents), persists it, and afterwards
get-cart shows the account's cart with zero items and total 0. -/
theorem C3 (db : DB) (uid foid fcid : String) (od : OrderCreate) (now t2 : Nat) :
    (create_order db uid od foid now).1.user_id = uid ∧
    (create_order db uid od foid now).1.status = "pending" ∧
    (create_order db uid od foid now).1.total_amount = cartTotal od.items ∧
    (∀ ps : List Product, (create_order { db with products := ps } uid od foid now).1 =
      (create_order db uid od foid now).1) ∧
    (create_order db uid od foid now).1 ∈ (create_order db uid od foid now).2.orders ∧
    (get_cart (create_order db uid od foid now).2 uid fcid t2).1.items = [] ∧
    (get_cart (create_order db uid od foid now).2 uid fcid t2).1.total_amount = 0 := by
  have hclear := get_cart_after_clear { db with orders := db.orders ++
      [(create_order db uid od foid now).1] } uid fcid now t2
  refine ⟨rfl, rfl, rfl, fun ps => rfl, ?_, hclear.1, hclear.2⟩
  show (create_order db uid od foid now).1 ∈ db.orders ++ [(create_order db uid od foid now).1]
  exact List.mem_append_right _ (List.mem_singleton_self _)

/-- Claim C6: registration with a valid, unused email persists a new account
carrying the freshly generated identifier (distinct from every existing
identifier) and returns a view without the password hash; a second
registration with the same email then fails EmailTaken; a syntactically
invalid email always fails InvalidEmail (before any existence check); and
for valid emails, EmailTaken occurs iff an account with that email exists. -/
theorem C6 (db : DB) (email fn ln pw fid salt : String) (now : Nat)
    (fn2 ln2 pw2 fid2 salt2 : String) (now2 : Nat)
    (hval : validEmail email = true)
    (hnone : findUserByEmail db email = none)
    (hfresh : ∀ u ∈ db.users, u.id ≠ fid) :
    ∃ nu : User,
      register db email fn ln pw fid salt now =
        Except.ok (userResponse nu, { db with users := db.users ++ [nu] }) ∧
      nu.id = fid ∧ nu.email = email ∧
      (∀ u ∈ db.users, u.id ≠ nu.id) ∧
      (∀ h2 : String, userResponse { nu with password_hash := h2 } = userResponse nu) ∧
      register { db with users := db.users ++ [nu] } email fn2 ln2 pw2 fid2 salt2 now2 =
        Except.error ⟨400, "Email already registered"⟩ ∧
      (∀ e fn3 ln3 pw3 fid3 salt3 : String, ∀ now3 : Nat, validEmail e = false →
        register db e fn3 ln3 pw3 fid3 salt3 now3 =
          Except.error ⟨400, "Invalid email format"⟩) ∧
      (∀ e : String, validEmail e = true →
        (register db e fn ln pw fid salt now =
            Except.error ⟨400, "Email already registered"⟩ ↔
          ∃ u : User, findUserByEmail db e = some u)) := by
  refine ⟨{ id := fid, email := email, first_name := fn, last_name := ln,
            password_hash := hash_password pw salt, created_at := now, is_active := true },
          ?_, rfl, rfl, hfresh, fun h2 => rfl, ?_, ?_, ?_⟩
  · simp [register, hval, hnone]
  · have htaken : findUserByEmail { db with users := db.users ++
        [{ id := fid, email := email, first_name := fn, last_name := ln,
           password_hash := hash_password pw salt, created_at := now,
           is_active := true } ] } email = some
        { id := fid, email := email, first_name := fn, last_name := ln,
          password_hash := hash_password pw salt, created_at := now,
          is_active := true } := by
      unfold findUserByEmail at hnone ⊢
      exact find_append_singleton _ _ _ hnone (by simp)
    simp [register, hval, htaken]
  · intro e fn3 ln3 pw3 fid3 salt3 now3 hbad
    simp [register, hbad]
  · intro e he
    constructor
    · intro herr
      cases hf : findUserByEmail db e with
      | none => simp [register, he, hf] at herr
      | some u => exact ⟨u, rfl⟩
    · rintro ⟨u, hf⟩
      simp [register, he, hf]

/-- Witness for C6 on a concrete database and the fresh email
`new@shop.com` with fresh identifier `u9`. -/
theorem C6_witness :
    (validEmail "new@shop.com" = true ∧
     findUserByEmail sampleDb "new@shop.com" = none ∧
     (∀ u ∈ sampleDb.users, u.id ≠ "u9")) ∧
    (∃ nu : User,
      register sampleDb "new@shop.com" "N" "S" "pw9" "u9" "s9" 5 =
        Except.ok (userResponse nu, { sampleDb with users := sampleDb.users ++ [nu] }) ∧
      nu.id = "u9" ∧ nu.email = "new@shop.com" ∧
      (∀ u ∈ sampleDb.users, u.id ≠ nu.id) ∧
      (∀ h2 : String, userResponse { nu with password_hash := h2 } = userResponse nu) ∧
      register { sampleDb with users := sampleDb.users ++ [nu] } "new@shop.com"
          "N2" "S2" "pw10" "u10" "s10" 6 =
        Except.error ⟨400, "Email already registered"⟩ ∧
      (∀ e fn3 ln3 pw3 fid3 salt3 : String, ∀ now3 : Nat, validEmail e = false →
        register sampleDb e fn3 ln3 pw3 fid3 salt3 now3 =
          Except.error ⟨400, "Invalid email format"⟩) ∧
      (∀ e : String, validEmail e = true →
        (register sampleDb e "N" "S" "pw9" "u9" "s9" 5 =
            Except.error ⟨400, "Email already registered"⟩ ↔
          ∃ u : User, findUserByEmail sampleDb e = some u))) :=
  ⟨⟨by decide, by decide, by decide⟩,
   C6 sampleDb "new@shop.com" "N" "S" "pw9" "u9" "s9" 5 "N2" "S2" "pw10" "u10" "s10" 6
     (by decide) (by decide) (by decide)⟩

/-- Claim C7: fetching an order while authenticated as `uidB` fails NotFound
iff no order with that identifier exists or the order with that identifier
is owned by someone else; in particular, an order of account `uidA` fetched
as a different account `uidB` fails NotFound, while the owner's fetch
returns the order. -/
theorem C7 (db : DB) (uidA uidB oid : String) (o : Order)
    (hnodup : (db.orders.map Order.id).Nodup) :
    (get_order db uidB oid = Except.error ⟨404, "Order not found"⟩ ↔
      (¬ ∃ o' ∈ db.orders, o'.id = oid) ∨
        ∃ o' ∈ db.orders, o'.id = oid ∧ o'.user_id ≠ uidB) ∧
    (o ∈ db.orders → o.id = oid → o.user_id = uidA → uidA ≠ uidB →
      get_order db uidB oid = Except.error ⟨404, "Order not found"⟩ ∧
      get_order db uidA oid = Except.ok o) := by
  have herrnone : ∀ uid : String,
      get_order db uid oid = Except.error ⟨404, "Order not found"⟩ ↔
        db.orders.find? (fun o' => o'.id == oid && o'.user_id == uid) = none := by
    intro uid
    unfold get_order
    cases hf : db.orders.find? (fun o' => o'.id == oid && o'.user_id == uid) with
    | none => simp
    | some x => simp
  have hchar : ∀ uid : String,
      get_order db uid oid = Except.error ⟨404, "Order not found"⟩ ↔
        ∀ o' ∈ db.orders, o'.id = oid → o'.user_id ≠ uid := by
    intro uid
    rw [herrnone uid, List.find?_eq_none]
    simp only [Bool.and_eq_true, beq_iff_eq, not_and]
  have hiff : get_order db uidB oid = Except.error ⟨404, "Order not found"⟩ ↔
      (¬ ∃ o' ∈ db.orders, o'.id = oid) ∨
        ∃ o' ∈ db.orders, o'.id = oid ∧ o'.user_id ≠ uidB := by
    rw [hchar uidB]
    constructor
    · intro h
      by_cases hex : ∃ o' ∈ db.orders, o'.id = oid
      · rcases hex with ⟨o1, ho1, hid⟩
        exact Or.inr ⟨o1, ho1, hid, h o1 ho1 hid⟩
      · exact Or.inl hex
    · rintro (hno | ⟨o1, ho1, hid1, hne1⟩) x hx hid
      · exact absurd ⟨x, hx, hid⟩ hno
      · have hxo : x = o1 :=
          List.inj_on_of_nodup_map hnodup hx ho1 (by rw [hid, hid1])
        rw [hxo]; exact hne1
  refine ⟨hiff, fun hmem hid huser hne => ⟨?_, ?_⟩⟩
  · exact hiff.mpr (Or.inr ⟨o, hmem, hid, by rw [huser]; exact hne⟩)
  · have hfound : db.orders.find? (fun o' => o'.id == oid && o'.user_id == uidA) = some o := by
      apply find_eq_of_unique _ _ _ hmem (by simp [hid, huser])
      intro y hy hpy
      simp only [Bool.and_eq_true, beq_iff_eq] at hpy
      exact List.inj_on_of_nodup_map hnodup hy hmem (by rw [hpy.1, hid])
    unfold get_order
    rw [hfound]

/-- Witness for C7 on a concrete database: the order `o1` belongs to `u1`,
so `u2`'s fetch fails NotFound and `u1`'s fetch returns it. -/
theorem C7_witness :
    ((sampleDb.orders.map Order.id).Nodup ∧ sampleOrder ∈ sampleDb.orders ∧
     sampleOrder.id = "o1" ∧ sampleOrder.user_id = "u1" ∧ "u1" ≠ "u2") ∧
    ((get_order sampleDb "u2" "o1" = Except.error ⟨404, "Order not found"⟩ ↔
      (¬ ∃ o' ∈ sampleDb.orders, o'.id = "o1") ∨
        ∃ o' ∈ sampleDb.orders, o'.id = "o1" ∧ o'.user_id ≠ "u2") ∧
     (sampleOrder ∈ sampleDb.orders → sampleOrder.id = "o1" →
      sampleOrder.user_id = "u1" → "u1" ≠ "u2" →
      get_order sampleDb "u2" "o1" = Except.error ⟨404, "Order not found"⟩ ∧
      get_order sampleDb "u1" "o1" = Except.ok sampleOrder)) :=
  ⟨⟨by decide, by decide, by decide, by decide, by decide⟩,
   C7 sampleDb "u1" "u2" "o1" sampleOrder (by decide)⟩

/-- Counterexample to claim C8 as stated: removing an absent product from an
existing cart does succeed, but it does NOT leave every cart field equal to
its pre-state value — `update_one` always sets `updated_at` to the current
time. Concretely, on `sampleDb` (whose cart has `updated_at = 0`) removing
the absent product `p9` at time 7 stores a cart different from the original. -/
theorem C8_counterexample :
    (∀ it ∈ emptyCart.items, it.product_id ≠ "p9") ∧
    remove_from_cart sampleDb "u1" "p9" 7 =
      Except.ok ("Item removed from cart",
        { users := [sampleUser], products := [sampleProduct],
          carts := [⟨"c1", "u1", [], 0, 0, 7⟩], orders := [sampleOrder] }) ∧
    findCart sampleDb "u1" = some emptyCart ∧
    (⟨"c1", "u1", [], 0, 0, 7⟩ : Cart) ≠ emptyCart :=
  ⟨by decide, rfl, rfl, by decide⟩

/-- Claim C8 (amended): removing a product not present in an existing cart
succeeds with the usual message and leaves the cart's line items, identifier,
owner and creation timestamp unchanged; `total_amount` is recomputed as
Σ quantity × price over the (unchanged) items — hence unchanged whenever the
stored total already satisfied the cart invariant — while `updated_at` is
set to the current time. The other collections are untouched. -/
theorem C8_amended (db : DB) (uid pid : String) (now : Nat) (c : Cart)
    (hc : findCart db uid = some c)
    (hnp : ∀ it ∈ c.items, it.product_id ≠ pid) :
    ∃ db' : DB,
      remove_from_cart db uid pid now = Except.ok ("Item removed from cart", db') ∧
      findCart db' uid =
        some { c with total_amount := cartTotal c.items, updated_at := now } ∧
      (c.total_amount = cartTotal c.items →
        findCart db' uid = some { c with updated_at := now }) ∧
      db'.users = db.users ∧ db'.products = db.products ∧ db'.orders = db.orders := by
  have hfilter : c.items.filter (fun it => it.product_id != pid) = c.items := by
    rw [List.filter_eq_self]
    intro a ha
    simpa using hnp a ha
  refine ⟨updateCartFields db uid c.items (cartTotal c.items) now, ?_, ?_, ?_, rfl, rfl, rfl⟩
  · unfold remove_from_cart
    rw [hc]
    show Except.ok ("Item removed from cart",
      updateCartFields db uid (c.items.filter (fun it => it.product_id != pid))
        (cartTotal (c.items.filter (fun it => it.product_id != pid))) now) =
      Except.ok ("Item removed from cart",
        updateCartFields db uid c.items (cartTotal c.items) now)
    rw [hfilter]
  · have h := findCart_updateCartFields db uid c.items (cartTotal c.items) now c hc
    simpa [setCartFields] using h
  · intro ht
    have h := findCart_updateCartFields db uid c.items (cartTotal c.items) now c hc
    rw [ht]
    simpa [setCartFields] using h

/-- Witness for the amended C8 on a concrete database: the cart satisfies
the total invariant, so only `updated_at` changes. -/
theorem C8_amended_witness :
    (findCart sampleDb "u1" = some emptyCart ∧
     (∀ it ∈ emptyCart.items, it.product_id ≠ "p9")) ∧
    (∃ db' : DB,
      remove_from_cart sampleDb "u1" "p9" 7 = Except.ok ("Item removed from cart", db') ∧
      findCart db' "u1" =
        some { emptyCart with total_amount := cartTotal emptyCart.items, updated_at := 7 } ∧
      (emptyCart.total_amount = cartTotal emptyCart.items →
        findCart db' "u1" = some { emptyCart with updated_at := 7 }) ∧
      db'.users = sampleDb.users ∧ db'.products = sampleDb.products ∧
      db'.orders = sampleDb.orders) :=
  ⟨⟨by decide, by decide⟩,
   C8_amended sampleDb "u1" "p9" 7 emptyCart (by decide) (by decide)⟩

/-- Claim C10: a successful add-to-cart reports `total_items` equal to the
number of line items in the persisted cart after the add — one line item per
distinct product identifier (the identifiers are duplicate-free) — and not
the sum of the quantities. -/
theorem C10 (db : DB) (uid pid fid : String) (qty : Int) (now : Nat)
    (r : AddResult) (db' : DB)
    (hinv : ∀ c0 : Cart, findCart db uid = some c0 →
      (c0.items.map CartItem.product_id).Nodup)
    (h : add_to_cart db uid pid qty fid now = Except.ok (r, db')) :
    ∃ c : Cart, findCart db' uid = some c ∧
      (c.items.map CartItem.product_id).Nodup ∧
      r.total_items = c.items.length := by
  cases hpp : findActiveProduct db pid with
  | none => unfold add_to_cart at h; rw [hpp] at h; cases h
  | some product =>
    cases hcc : findCart db uid with
    | some cart =>
      rw [add_to_cart_existing db uid pid qty fid now cart product hpp hcc] at h
      have hnd := hinv cart hcc
      cases hfind : cart.items.find? (fun it => it.product_id == pid) with
      | some it0 =>
        rw [addStep_merge db uid pid qty now product cart it0 hfind] at h
        simp only [Except.ok.injEq, Prod.mk.injEq] at h
        refine ⟨setCartFields (addQuantityToFirst cart.items pid qty)
          (cartTotal (addQuantityToFirst cart.items pid qty)) now cart, ?_, ?_, ?_⟩
        · rw [← h.2]
          exact findCart_updateCartFields db uid _ _ now cart hcc
        · show ((addQuantityToFirst cart.items pid qty).map CartItem.product_id).Nodup
          rw [map_productId_addQuantityToFirst]
          exact hnd
        · show r.total_items = (addQuantityToFirst cart.items pid qty).length
          rw [← h.1, length_addQuantityToFirst]
      | none =>
        rw [addStep_append db uid pid qty now product cart hfind] at h
        simp only [Except.ok.injEq, Prod.mk.injEq] at h
        refine ⟨setCartFields (cart.items ++ [(⟨pid, qty, product.price⟩ : CartItem)])
          (cartTotal (cart.items ++ [(⟨pid, qty, product.price⟩ : CartItem)]))
          now cart, ?_, ?_, ?_⟩
        · rw [← h.2]
          exact findCart_updateCartFields db uid _ _ now cart hcc
        · exact nodup_append_new cart.items pid qty product.price hnd hfind
        · show r.total_items = (cart.items ++ [(⟨pid, qty, product.price⟩ : CartItem)]).length
          rw [← h.1]
          simp
    | none =>
      rw [add_to_cart_fresh db uid pid qty fid now product hpp hcc] at h
      have hfind : (newCart fid uid now).items.find?
          (fun it => it.product_id == pid) = none := rfl
      rw [addStep_append _ uid pid qty now product _ hfind] at h
      simp only [Except.ok.injEq, Prod.mk.injEq] at h
      have hcc1 : findCart { db with carts := db.carts ++ [newCart fid uid now] } uid =
          some (newCart fid uid now) := by
        unfold findCart at hcc ⊢
        exact find_append_singleton _ _ _ hcc (by simp [newCart])
      refine ⟨setCartFields
        ((newCart fid uid now).items ++ [(⟨pid, qty, product.price⟩ : CartItem)])
        (cartTotal ((newCart fid uid now).items ++ [(⟨pid, qty, product.price⟩ : CartItem)]))
        now (newCart fid uid now), ?_, ?_, ?_⟩
      · rw [← h.2]
        exact findCart_updateCartFields _ uid _ _ now _ hcc1
      · exact nodup_append_new [] pid qty product.price List.nodup_nil rfl
      · show r.total_items =
          ((newCart fid uid now).items ++ [(⟨pid, qty, product.price⟩ : CartItem)]).length
        rw [← h.1]
        simp [newCart]

/-- Witness for C10 on a concrete database: adding quantity 2 of `p1` to the
empty cart yields one line item, so `total_items` is 1, not 2. -/
theorem C10_witness :
    ∃ r : AddResult, ∃ db' : DB,
      add_to_cart sampleDb "u1" "p1" 2 "c6" 4 = Except.ok (r, db') ∧
      ∃ c : Cart, findCart db' "u1" = some c ∧
        (c.items.map CartItem.product_id).Nodup ∧
        r.total_items = c.items.length := by
  refine ⟨⟨"Item added to cart", 1⟩,
    updateCartFields sampleDb "u1" [⟨"p1", 2, 10⟩] (cartTotal [⟨"p1", 2, 10⟩]) 4, rfl, ?_⟩
  refine C10 sampleDb "u1" "p1" "c6" 2 4 ⟨"Item added to cart", 1⟩
    (updateCartFields sampleDb "u1" [⟨"p1", 2, 10⟩] (cartTotal [⟨"p1", 2, 10⟩]) 4)
    (fun c0 h0 => ?_) rfl
  have h0' : (some emptyCart : Option Cart) = some c0 := h0
  injection h0' with h0''
  rw [← h0'']
  exact List.nodup_nil

/-- Witness for C9 on a concrete database with no cart for the account. -/
theorem C9_witness :
    findCart sampleDbNoCart "u1" = none ∧
    (∃ c : Cart, ∃ db1 : DB,
      get_cart sampleDbNoCart "u1" "c7" 3 = (c, db1) ∧
      c.items = [] ∧ c.total_amount = 0 ∧ c.user_id = "u1" ∧
      findCart db1 "u1" = some c ∧
      get_cart db1 "u1" "c8" 4 = (c, db1) ∧
      (∀ db0 : DB, ∀ c0 : Cart, findCart db0 "u1" = some c0 →
        get_cart db0 "u1" "c8" 4 = (c0, db0))) :=
  ⟨by decide, C9 sampleDbNoCart "u1" "c7" "c8" 3 4 (by decide)⟩

end Server
